import Mathlib

/-!
Shallow embedding of `src/extensions/git/src/main.ts` (the git extension's
activation, installer and warning logic).  Effectful TypeScript is modelled
by explicit state passing: the mutable global git configuration, the exec
trace, and the UI messages live in a `World` record; the behaviour of the
external `git` binary and of the filesystem is an environment of pure
functions supplied as a parameter.
-/

namespace VscodeGit

/-- Outcome of one `git.exec('.', ['config', '--global', key, value])` call:
either the spawn throws, or the process exits with a code and stderr. -/
inductive ExecOutcome where
  | thrown (err : String)
  | exited (exitCode : Int) (stderr : String)
deriving DecidableEq, Repr

/-- Environment for the installer functions: the behaviour of the git
subprocess on a `config --global key value` invocation, and the result of
`findVsCodeExeInPath`. -/
structure GitEnv where
  exec : String → String → ExecOutcome
  findExe : String

/-- Observable state threaded through the installer functions: the global
git configuration (written by successful `config --global` subprocesses),
the trace of attempted config-write invocations, the messages shown via
`window.showInformationMessage` / `showErrorMessage`, whether
`outputChannel.show()` was called, and the `console.error` log. -/
structure World where
  config : List (String × String)
  execTrace : List (String × String)
  infoMsgs : List String
  errMsgs : List String
  outputShown : Bool
  consoleErrors : List String
deriving DecidableEq, Repr

/-- Write one key in the global-config association list: replace the
binding in place when present, append otherwise. -/
def setKey : List (String × String) → String → String → List (String × String)
  | [], k, v => [(k, v)]
  | (k', v') :: rest, k, v =>
      if k' = k then (k, v) :: rest else (k', v') :: setKey rest k v

/-- Look a key up in the global-config association list. -/
def lookupKey : List (String × String) → String → Option String
  | [], _ => none
  | (k', v') :: rest, k => if k' = k then some v' else lookupKey rest k

/-- `setGitGlobalConfig` from main.ts: runs
`git config --global key value`; any spawn failure is caught and any
non-zero exit code is logged, both converted to `false`; returns `true`
exactly on exit code 0 (in which case the subprocess wrote the key). -/
def setGitGlobalConfig (env : GitEnv) (w : World) (key value : String) :
    Bool × World :=
  let w := { w with execTrace := w.execTrace ++ [(key, value)] }
  match env.exec key value with
  | .thrown err =>
      (false, { w with consoleErrors :=
        w.consoleErrors ++ ["Fail to set git setting. Error: \n" ++ err] })
  | .exited code stderr =>
      if code ≠ 0 then
        (false, { w with consoleErrors :=
          w.consoleErrors ++ ["Fail to set git setting. Error: \n" ++ stderr] })
      else
        (true, { w with config := setKey w.config key value })

/-- Whether the config-write subprocess for `(key, value)` succeeds under
`env` (exits with code 0). -/
def stepOk (env : GitEnv) (key value : String) : Bool :=
  match env.exec key value with
  | .thrown _ => false
  | .exited code _ => decide (code = 0)

/-- `window.showInformationMessage`. -/
def showInfo (w : World) (m : String) : World :=
  { w with infoMsgs := w.infoMsgs ++ [m] }

/-- `window.showErrorMessage` followed by `outputChannel.show()`, the
failure path shared by the three installers. -/
def showErr (w : World) (m : String) : World :=
  { w with errMsgs := w.errMsgs ++ [m], outputShown := true }

/-- `vscodeExe = vscodeExe || await findVsCodeExeInPath()`: the optional
argument wins unless it is absent or the empty string (JS falsiness). -/
def resolveExe (env : GitEnv) : Option String → String
  | some s => if s = "" then env.findExe else s
  | none => env.findExe

/-- The `core.editor` value written by `setVsCodeAsGitEditor`. -/
def editorCmd (exe : String) : String := "\"" ++ exe ++ "\" --wait"

/-- The `difftool.vscode.cmd` value written by `setVsCodeAsGitDiffTool`. -/
def diffCmd (exe : String) : String :=
  "\"" ++ exe ++ "\" --wait --diff \"$LOCAL\" \"$REMOTE\""

/-- The `mergetool.vscode.cmd` value written by `setVsCodeAsGitMergeTool`. -/
def mergeCmd (exe : String) : String :=
  "\"" ++ exe ++ "\" --wait \"$MERGED\""

/-- `setVsCodeAsGitEditor` from main.ts. -/
def setVsCodeAsGitEditor (env : GitEnv) (w : World) (vscodeExe : Option String) :
    Bool × World :=
  let exe := resolveExe env vscodeExe
  let r := setGitGlobalConfig env w "core.editor" (editorCmd exe)
  if r.1 then (true, showInfo r.2 "successGitEditor")
  else (false, showErr r.2 "failGitEditor")

/-- `setVsCodeAsGitDiffTool` from main.ts: `A && B` evaluates `B` only when
`A` returned `true`. -/
def setVsCodeAsGitDiffTool (env : GitEnv) (w : World) (vscodeExe : Option String) :
    Bool × World :=
  let exe := resolveExe env vscodeExe
  let r1 := setGitGlobalConfig env w "difftool.vscode.cmd" (diffCmd exe)
  if r1.1 then
    let r2 := setGitGlobalConfig env r1.2 "diff.tool" "vscode"
    if r2.1 then (true, showInfo r2.2 "successDiffTool")
    else (false, showErr r2.2 "failDiffTool")
  else (false, showErr r1.2 "failDiffTool")

/-- `setVsCodeAsGitMergeTool` from main.ts. -/
def setVsCodeAsGitMergeTool (env : GitEnv) (w : World) (vscodeExe : Option String) :
    Bool × World :=
  let exe := resolveExe env vscodeExe
  let r1 := setGitGlobalConfig env w "mergetool.vscode.cmd" (mergeCmd exe)
  if r1.1 then
    let r2 := setGitGlobalConfig env r1.2 "merge.tool" "vscode"
    if r2.1 then (true, showInfo r2.2 "successMergeTool")
    else (false, showErr r2.2 "failMergeTool")
  else (false, showErr r1.2 "failMergeTool")

/-- `setVsCodeAsGitTools` from main.ts: resolves the executable once and
chains the three installers with `&&` (short-circuit). -/
def setVsCodeAsGitTools (env : GitEnv) (w : World) : Bool × World :=
  let exe := env.findExe
  let r1 := setVsCodeAsGitEditor env w (some exe)
  if r1.1 then
    let r2 := setVsCodeAsGitDiffTool env r1.2 (some exe)
    if r2.1 then setVsCodeAsGitMergeTool env r2.2 (some exe)
    else (false, r2.2)
  else (false, r1.2)

/-! ### Characterisation lemmas for `setGitGlobalConfig` -/

theorem sg_fst (env : GitEnv) (w : World) (k v : String) :
    (setGitGlobalConfig env w k v).1 = stepOk env k v := by
  rcases h : env.exec k v with err | ⟨c, s⟩ <;>
    simp only [setGitGlobalConfig, stepOk, h]
  by_cases hc : c = 0 <;> simp [hc]

theorem sg_trace (env : GitEnv) (w : World) (k v : String) :
    (setGitGlobalConfig env w k v).2.execTrace = w.execTrace ++ [(k, v)] := by
  rcases h : env.exec k v with err | ⟨c, s⟩ <;>
    simp only [setGitGlobalConfig, h]
  by_cases hc : c = 0 <;> simp [hc]

theorem sg_config (env : GitEnv) (w : World) (k v : String) :
    (setGitGlobalConfig env w k v).2.config =
      (if stepOk env k v then setKey w.config k v else w.config) := by
  rcases h : env.exec k v with err | ⟨c, s⟩ <;>
    simp only [setGitGlobalConfig, stepOk, h]
  · simp
  · by_cases hc : c = 0 <;> simp [hc]

theorem sg_infoMsgs (env : GitEnv) (w : World) (k v : String) :
    (setGitGlobalConfig env w k v).2.infoMsgs = w.infoMsgs := by
  rcases h : env.exec k v with err | ⟨c, s⟩ <;>
    simp only [setGitGlobalConfig, h]
  · by_cases hc : c = 0 <;> simp [hc]

theorem sg_errMsgs (env : GitEnv) (w : World) (k v : String) :
    (setGitGlobalConfig env w k v).2.errMsgs = w.errMsgs := by
  rcases h : env.exec k v with err | ⟨c, s⟩ <;>
    simp only [setGitGlobalConfig, h]
  · by_cases hc : c = 0 <;> simp [hc]

/-! ### Characterisation lemmas for the installer operations -/

theorem resolveExe_some_findExe (env : GitEnv) :
    resolveExe env (some env.findExe) = env.findExe := by
  simp [resolveExe]

theorem editor_fst (env : GitEnv) (w : World) (x : Option String) :
    (setVsCodeAsGitEditor env w x).1
      = stepOk env "core.editor" (editorCmd (resolveExe env x)) := by
  cases h : stepOk env "core.editor" (editorCmd (resolveExe env x)) <;>
    simp [setVsCodeAsGitEditor, sg_fst, h]

theorem editor_trace (env : GitEnv) (w : World) (x : Option String) :
    (setVsCodeAsGitEditor env w x).2.execTrace
      = w.execTrace ++ [("core.editor", editorCmd (resolveExe env x))] := by
  cases h : stepOk env "core.editor" (editorCmd (resolveExe env x)) <;>
    simp [setVsCodeAsGitEditor, sg_fst, sg_trace, h, showInfo, showErr]

theorem editor_config (env : GitEnv) (w : World) (x : Option String) :
    (setVsCodeAsGitEditor env w x).2.config
      = (if stepOk env "core.editor" (editorCmd (resolveExe env x)) then
          setKey w.config "core.editor" (editorCmd (resolveExe env x))
        else w.config) := by
  cases h : stepOk env "core.editor" (editorCmd (resolveExe env x)) <;>
    simp [setVsCodeAsGitEditor, sg_fst, sg_config, h, showInfo, showErr]

theorem diff_fst (env : GitEnv) (w : World) (x : Option String) :
    (setVsCodeAsGitDiffTool env w x).1
      = (stepOk env "difftool.vscode.cmd" (diffCmd (resolveExe env x))
          && stepOk env "diff.tool" "vscode") := by
  cases h1 : stepOk env "difftool.vscode.cmd" (diffCmd (resolveExe env x)) <;>
    cases h2 : stepOk env "diff.tool" "vscode" <;>
      simp [setVsCodeAsGitDiffTool, sg_fst, h1, h2]

theorem diff_trace (env : GitEnv) (w : World) (x : Option String) :
    (setVsCodeAsGitDiffTool env w x).2.execTrace
      = w.execTrace ++
        (if stepOk env "difftool.vscode.cmd" (diffCmd (resolveExe env x)) then
          [("difftool.vscode.cmd", diffCmd (resolveExe env x)),
           ("diff.tool", "vscode")]
        else [("difftool.vscode.cmd", diffCmd (resolveExe env x))]) := by
  cases h1 : stepOk env "difftool.vscode.cmd" (diffCmd (resolveExe env x)) <;>
    cases h2 : stepOk env "diff.tool" "vscode" <;>
      simp [setVsCodeAsGitDiffTool, sg_fst, sg_trace, h1, h2, showInfo, showErr]

theorem diff_config (env : GitEnv) (w : World) (x : Option String) :
    (setVsCodeAsGitDiffTool env w x).2.config
      = (if stepOk env "difftool.vscode.cmd" (diffCmd (resolveExe env x)) then
          (if stepOk env "diff.tool" "vscode" then
            setKey (setKey w.config "difftool.vscode.cmd"
              (diffCmd (resolveExe env x))) "diff.tool" "vscode"
          else setKey w.config "difftool.vscode.cmd" (diffCmd (resolveExe env x)))
        else w.config) := by
  cases h1 : stepOk env "difftool.vscode.cmd" (diffCmd (resolveExe env x)) <;>
    cases h2 : stepOk env "diff.tool" "vscode" <;>
      simp [setVsCodeAsGitDiffTool, sg_fst, sg_config, h1, h2, showInfo, showErr]

theorem merge_fst (env : GitEnv) (w : World) (x : Option String) :
    (setVsCodeAsGitMergeTool env w x).1
      = (stepOk env "mergetool.vscode.cmd" (mergeCmd (resolveExe env x))
          && stepOk env "merge.tool" "vscode") := by
  cases h1 : stepOk env "mergetool.vscode.cmd" (mergeCmd (resolveExe env x)) <;>
    cases h2 : stepOk env "merge.tool" "vscode" <;>
      simp [setVsCodeAsGitMergeTool, sg_fst, h1, h2]

theorem merge_trace (env : GitEnv) (w : World) (x : Option String) :
    (setVsCodeAsGitMergeTool env w x).2.execTrace
      = w.execTrace ++
        (if stepOk env "mergetool.vscode.cmd" (mergeCmd (resolveExe env x)) then
          [("mergetool.vscode.cmd", mergeCmd (resolveExe env x)),
           ("merge.tool", "vscode")]
        else [("mergetool.vscode.cmd", mergeCmd (resolveExe env x))]) := by
  cases h1 : stepOk env "mergetool.vscode.cmd" (mergeCmd (resolveExe env x)) <;>
    cases h2 : stepOk env "merge.tool" "vscode" <;>
      simp [setVsCodeAsGitMergeTool, sg_fst, sg_trace, h1, h2, showInfo, showErr]

theorem merge_config (env : GitEnv) (w : World) (x : Option String) :
    (setVsCodeAsGitMergeTool env w x).2.config
      = (if stepOk env "mergetool.vscode.cmd" (mergeCmd (resolveExe env x)) then
          (if stepOk env "merge.tool" "vscode" then
            setKey (setKey w.config "mergetool.vscode.cmd"
              (mergeCmd (resolveExe env x))) "merge.tool" "vscode"
          else setKey w.config "mergetool.vscode.cmd"
            (mergeCmd (resolveExe env x)))
        else w.config) := by
  cases h1 : stepOk env "mergetool.vscode.cmd" (mergeCmd (resolveExe env x)) <;>
    cases h2 : stepOk env "merge.tool" "vscode" <;>
      simp [setVsCodeAsGitMergeTool, sg_fst, sg_config, h1, h2, showInfo, showErr]

/-- The config-write invocations attempted by `setVsCodeAsGitTools`, as a
function of which of the first four steps succeed (the fifth step's outcome
cannot cut any later step short). -/
def toolsTrace (se sdc sdt smc : Bool) (exe : String) : List (String × String) :=
  ("core.editor", editorCmd exe) ::
    (if se then
      ("difftool.vscode.cmd", diffCmd exe) ::
        (if sdc then
          ("diff.tool", "vscode") ::
            (if sdt then
              ("mergetool.vscode.cmd", mergeCmd exe) ::
                (if smc then [("merge.tool", "vscode")] else [])
            else [])
        else [])
    else [])

theorem tools_fst (env : GitEnv) (w : World) :
    (setVsCodeAsGitTools env w).1
      = (stepOk env "core.editor" (editorCmd env.findExe)
          && stepOk env "difftool.vscode.cmd" (diffCmd env.findExe)
          && stepOk env "diff.tool" "vscode"
          && stepOk env "mergetool.vscode.cmd" (mergeCmd env.findExe)
          && stepOk env "merge.tool" "vscode") := by
  cases h1 : stepOk env "core.editor" (editorCmd env.findExe) <;>
    cases h2 : stepOk env "difftool.vscode.cmd" (diffCmd env.findExe) <;>
      cases h3 : stepOk env "diff.tool" "vscode" <;>
        cases h4 : stepOk env "mergetool.vscode.cmd" (mergeCmd env.findExe) <;>
          cases h5 : stepOk env "merge.tool" "vscode" <;>
            simp [setVsCodeAsGitTools, editor_fst, diff_fst, merge_fst,
              resolveExe_some_findExe, h1, h2, h3, h4, h5]

theorem tools_trace (env : GitEnv) (w : World) :
    (setVsCodeAsGitTools env w).2.execTrace
      = w.execTrace ++
        toolsTrace (stepOk env "core.editor" (editorCmd env.findExe))
          (stepOk env "difftool.vscode.cmd" (diffCmd env.findExe))
          (stepOk env "diff.tool" "vscode")
          (stepOk env "mergetool.vscode.cmd" (mergeCmd env.findExe))
          env.findExe := by
  cases h1 : stepOk env "core.editor" (editorCmd env.findExe) <;>
    cases h2 : stepOk env "difftool.vscode.cmd" (diffCmd env.findExe) <;>
      cases h3 : stepOk env "diff.tool" "vscode" <;>
        cases h4 : stepOk env "mergetool.vscode.cmd" (mergeCmd env.findExe) <;>
          cases h5 : stepOk env "merge.tool" "vscode" <;>
            simp [setVsCodeAsGitTools, toolsTrace, editor_fst, editor_trace,
              diff_fst, diff_trace, merge_fst, merge_trace,
              resolveExe_some_findExe, h1, h2, h3, h4, h5]

/-! ### Association-list lemmas for the global configuration -/

theorem lookupKey_setKey_self (c : List (String × String)) (k v : String) :
    lookupKey (setKey c k v) k = some v := by
  induction c with
  | nil => simp [setKey, lookupKey]
  | cons p rest ih =>
      obtain ⟨k', v'⟩ := p
      by_cases h : k' = k <;> simp [setKey, lookupKey, h, ih]

theorem lookupKey_setKey_ne (c : List (String × String)) (k k' v' : String)
    (h : k ≠ k') : lookupKey (setKey c k' v') k = lookupKey c k := by
  induction c with
  | nil => simp [setKey, lookupKey, Ne.symm h]
  | cons p rest ih =>
      obtain ⟨a, b⟩ := p
      by_cases ha : a = k' <;>
        by_cases hak : a = k <;>
          simp_all [setKey, lookupKey, Ne.symm h]

theorem setKey_of_lookup (c : List (String × String)) (k v : String)
    (h : lookupKey c k = some v) : setKey c k v = c := by
  induction c with
  | nil => simp [lookupKey] at h
  | cons p rest ih =>
      obtain ⟨a, b⟩ := p
      by_cases ha : a = k
      · subst ha
        simp [lookupKey] at h
        simp [setKey, h]
      · simp [lookupKey, ha] at h
        simp [setKey, ha, ih h]

/-! ### Concrete environments used as evaluation inputs -/

/-- The empty starting world. -/
def w0 : World :=
  { config := [], execTrace := [], infoMsgs := [], errMsgs := [],
    outputShown := false, consoleErrors := [] }

/-- A healthy toolchain: every config-write subprocess exits with code 0. -/
def envAllOk : GitEnv :=
  { exec := fun _ _ => ExecOutcome.exited 0 "", findExe := "code" }

/-- A toolchain whose config-write subprocess always fails to spawn. -/
def envAllThrow : GitEnv :=
  { exec := fun _ _ => ExecOutcome.thrown "spawn failure", findExe := "code" }

/-- A toolchain for which writing key `bad` exits non-zero and every other
write succeeds. -/
def envFailOn (bad : String) : GitEnv :=
  { exec := fun k _ =>
      if k = bad then ExecOutcome.exited 1 "config write failed"
      else ExecOutcome.exited 0 "",
    findExe := "code" }

/-! ### Claims about the installer operations -/

/-- C1: every multi-step installer operation short-circuits: its overall
result is the conjunction of its constituent `setGitGlobalConfig` results,
and its exec trace stops right after the first failing write, so a failing
step means no later config-write step is attempted and the operation
returns `false`; it returns `true` exactly when every constituent call
returned `true`. -/
theorem installer_short_circuit (env : GitEnv) (w : World) :
    ((setVsCodeAsGitEditor env w none).1
        = stepOk env "core.editor" (editorCmd env.findExe)
      ∧ (setVsCodeAsGitEditor env w none).2.execTrace
        = w.execTrace ++ [("core.editor", editorCmd env.findExe)])
  ∧ ((setVsCodeAsGitDiffTool env w none).1
        = (stepOk env "difftool.vscode.cmd" (diffCmd env.findExe)
            && stepOk env "diff.tool" "vscode")
      ∧ (setVsCodeAsGitDiffTool env w none).2.execTrace
        = w.execTrace ++
          (if stepOk env "difftool.vscode.cmd" (diffCmd env.findExe) then
            [("difftool.vscode.cmd", diffCmd env.findExe),
             ("diff.tool", "vscode")]
          else [("difftool.vscode.cmd", diffCmd env.findExe)]))
  ∧ ((setVsCodeAsGitMergeTool env w none).1
        = (stepOk env "mergetool.vscode.cmd" (mergeCmd env.findExe)
            && stepOk env "merge.tool" "vscode")
      ∧ (setVsCodeAsGitMergeTool env w none).2.execTrace
        = w.execTrace ++
          (if stepOk env "mergetool.vscode.cmd" (mergeCmd env.findExe) then
            [("mergetool.vscode.cmd", mergeCmd env.findExe),
             ("merge.tool", "vscode")]
          else [("mergetool.vscode.cmd", mergeCmd env.findExe)]))
  ∧ ((setVsCodeAsGitTools env w).1
        = (stepOk env "core.editor" (editorCmd env.findExe)
            && stepOk env "difftool.vscode.cmd" (diffCmd env.findExe)
            && stepOk env "diff.tool" "vscode"
            && stepOk env "mergetool.vscode.cmd" (mergeCmd env.findExe)
            && stepOk env "merge.tool" "vscode")
      ∧ (setVsCodeAsGitTools env w).2.execTrace
        = w.execTrace ++
          toolsTrace (stepOk env "core.editor" (editorCmd env.findExe))
            (stepOk env "difftool.vscode.cmd" (diffCmd env.findExe))
            (stepOk env "diff.tool" "vscode")
            (stepOk env "mergetool.vscode.cmd" (mergeCmd env.findExe))
            env.findExe) := by
  exact ⟨⟨editor_fst env w none, editor_trace env w none⟩,
    ⟨diff_fst env w none, diff_trace env w none⟩,
    ⟨merge_fst env w none, merge_trace env w none⟩,
    tools_fst env w, tools_trace env w⟩

/-- C4: `setGitGlobalConfig` is a total boolean operation: it returns
`true` exactly when the subprocess exits with code 0, and both a spawn
failure and a non-zero exit are converted to a `false` return rather than
propagated. -/
theorem setGitGlobalConfig_total_boolean (env : GitEnv) (w : World)
    (k v : String) :
    ((setGitGlobalConfig env w k v).1 = true
      ↔ ∃ s, env.exec k v = ExecOutcome.exited 0 s)
  ∧ (∀ err, env.exec k v = ExecOutcome.thrown err →
      (setGitGlobalConfig env w k v).1 = false)
  ∧ (∀ c s, env.exec k v = ExecOutcome.exited c s → c ≠ 0 →
      (setGitGlobalConfig env w k v).1 = false) := by
  refine ⟨?_, ?_, ?_⟩
  · rw [sg_fst]
    rcases h : env.exec k v with err | ⟨c, s⟩ <;> simp [stepOk, h]
  · intro err h
    rw [sg_fst]
    simp [stepOk, h]
  · intro c s h hc
    rw [sg_fst]
    simp [stepOk, h, hc]

theorem setGitGlobalConfig_total_boolean_witness :
    (setGitGlobalConfig envAllThrow w0 "user.name" "x").1 = false
  ∧ (setGitGlobalConfig envAllOk w0 "user.name" "x").1 = true :=
  ⟨(setGitGlobalConfig_total_boolean envAllThrow w0 "user.name" "x").2.1
      "spawn failure" rfl,
   (setGitGlobalConfig_total_boolean envAllOk w0 "user.name" "x").1.mpr
      ⟨"", rfl⟩⟩

/-! ### Healthy-toolchain configuration shapes -/

theorem editor_healthy (env : GitEnv) (w : World)
    (hH : ∀ k v, stepOk env k v = true) :
    (setVsCodeAsGitEditor env w none).1 = true
    ∧ (setVsCodeAsGitEditor env w none).2.config
        = setKey w.config "core.editor" (editorCmd env.findExe) := by
  refine ⟨?_, ?_⟩
  · simp [editor_fst, hH]
  · simp [editor_config, hH, resolveExe]

theorem diff_healthy (env : GitEnv) (w : World)
    (hH : ∀ k v, stepOk env k v = true) :
    (setVsCodeAsGitDiffTool env w none).1 = true
    ∧ (setVsCodeAsGitDiffTool env w none).2.config
        = setKey (setKey w.config "difftool.vscode.cmd" (diffCmd env.findExe))
            "diff.tool" "vscode" := by
  refine ⟨?_, ?_⟩
  · simp [diff_fst, hH]
  · simp [diff_config, hH, resolveExe]

theorem mergeTool_healthy (env : GitEnv) (w : World)
    (hH : ∀ k v, stepOk env k v = true) :
    (setVsCodeAsGitMergeTool env w none).1 = true
    ∧ (setVsCodeAsGitMergeTool env w none).2.config
        = setKey (setKey w.config "mergetool.vscode.cmd" (mergeCmd env.findExe))
            "merge.tool" "vscode" := by
  refine ⟨?_, ?_⟩
  · simp [merge_fst, hH]
  · simp [merge_config, hH, resolveExe]

theorem tools_healthy (env : GitEnv) (w : World)
    (hH : ∀ k v, stepOk env k v = true) :
    (setVsCodeAsGitTools env w).1 = true
    ∧ (setVsCodeAsGitTools env w).2.config
        = setKey (setKey (setKey (setKey (setKey w.config
            "core.editor" (editorCmd env.findExe))
            "difftool.vscode.cmd" (diffCmd env.findExe))
            "diff.tool" "vscode")
            "mergetool.vscode.cmd" (mergeCmd env.findExe))
            "merge.tool" "vscode" := by
  refine ⟨?_, ?_⟩
  · simp [tools_fst, hH]
  · simp [setVsCodeAsGitTools, editor_fst, diff_fst, merge_fst,
      editor_config, diff_config, merge_config, resolveExe_some_findExe, hH]

/-- C9: with a healthy toolchain (every config write exits 0), each of the
four installer operations returns `true` on two successive calls and the
global configuration after the second call equals the configuration after
the first call. -/
theorem installers_idempotent (env : GitEnv) (w : World)
    (hH : ∀ k v, stepOk env k v = true) :
    ((setVsCodeAsGitEditor env w none).1 = true
      ∧ (setVsCodeAsGitEditor env (setVsCodeAsGitEditor env w none).2 none).1
          = true
      ∧ (setVsCodeAsGitEditor env
            (setVsCodeAsGitEditor env w none).2 none).2.config
          = (setVsCodeAsGitEditor env w none).2.config)
  ∧ ((setVsCodeAsGitDiffTool env w none).1 = true
      ∧ (setVsCodeAsGitDiffTool env
            (setVsCodeAsGitDiffTool env w none).2 none).1 = true
      ∧ (setVsCodeAsGitDiffTool env
            (setVsCodeAsGitDiffTool env w none).2 none).2.config
          = (setVsCodeAsGitDiffTool env w none).2.config)
  ∧ ((setVsCodeAsGitMergeTool env w none).1 = true
      ∧ (setVsCodeAsGitMergeTool env
            (setVsCodeAsGitMergeTool env w none).2 none).1 = true
      ∧ (setVsCodeAsGitMergeTool env
            (setVsCodeAsGitMergeTool env w none).2 none).2.config
          = (setVsCodeAsGitMergeTool env w none).2.config)
  ∧ ((setVsCodeAsGitTools env w).1 = true
      ∧ (setVsCodeAsGitTools env (setVsCodeAsGitTools env w).2).1 = true
      ∧ (setVsCodeAsGitTools env (setVsCodeAsGitTools env w).2).2.config
          = (setVsCodeAsGitTools env w).2.config) := by
  refine ⟨⟨(editor_healthy env w hH).1, (editor_healthy env _ hH).1, ?_⟩,
    ⟨(diff_healthy env w hH).1, (diff_healthy env _ hH).1, ?_⟩,
    ⟨(mergeTool_healthy env w hH).1, (mergeTool_healthy env _ hH).1, ?_⟩,
    (tools_healthy env w hH).1, (tools_healthy env _ hH).1, ?_⟩
  · rw [(editor_healthy env _ hH).2, (editor_healthy env w hH).2]
    exact setKey_of_lookup _ _ _ (lookupKey_setKey_self _ _ _)
  · rw [(diff_healthy env _ hH).2, (diff_healthy env w hH).2]
    have l1 : lookupKey
        (setKey (setKey w.config "difftool.vscode.cmd" (diffCmd env.findExe))
          "diff.tool" "vscode") "difftool.vscode.cmd"
        = some (diffCmd env.findExe) := by
      rw [lookupKey_setKey_ne _ _ _ _ (by decide)]
      exact lookupKey_setKey_self _ _ _
    rw [setKey_of_lookup _ _ _ l1]
    exact setKey_of_lookup _ _ _ (lookupKey_setKey_self _ _ _)
  · rw [(mergeTool_healthy env _ hH).2, (mergeTool_healthy env w hH).2]
    have l1 : lookupKey
        (setKey (setKey w.config "mergetool.vscode.cmd" (mergeCmd env.findExe))
          "merge.tool" "vscode") "mergetool.vscode.cmd"
        = some (mergeCmd env.findExe) := by
      rw [lookupKey_setKey_ne _ _ _ _ (by decide)]
      exact lookupKey_setKey_self _ _ _
    rw [setKey_of_lookup _ _ _ l1]
    exact setKey_of_lookup _ _ _ (lookupKey_setKey_self _ _ _)
  · rw [(tools_healthy env _ hH).2, (tools_healthy env w hH).2]
    have l1 : lookupKey
        (setKey (setKey (setKey (setKey (setKey w.config
          "core.editor" (editorCmd env.findExe))
          "difftool.vscode.cmd" (diffCmd env.findExe))
          "diff.tool" "vscode")
          "mergetool.vscode.cmd" (mergeCmd env.findExe))
          "merge.tool" "vscode") "core.editor"
        = some (editorCmd env.findExe) := by
      rw [lookupKey_setKey_ne _ _ _ _ (by decide),
        lookupKey_setKey_ne _ _ _ _ (by decide),
        lookupKey_setKey_ne _ _ _ _ (by decide),
        lookupKey_setKey_ne _ _ _ _ (by decide)]
      exact lookupKey_setKey_self _ _ _
    rw [setKey_of_lookup _ _ _ l1]
    have l2 : lookupKey
        (setKey (setKey (setKey (setKey (setKey w.config
          "core.editor" (editorCmd env.findExe))
          "difftool.vscode.cmd" (diffCmd env.findExe))
          "diff.tool" "vscode")
          "mergetool.vscode.cmd" (mergeCmd env.findExe))
          "merge.tool" "vscode") "difftool.vscode.cmd"
        = some (diffCmd env.findExe) := by
      rw [lookupKey_setKey_ne _ _ _ _ (by decide),
        lookupKey_setKey_ne _ _ _ _ (by decide),
        lookupKey_setKey_ne _ _ _ _ (by decide)]
      exact lookupKey_setKey_self _ _ _
    rw [setKey_of_lookup _ _ _ l2]
    have l3 : lookupKey
        (setKey (setKey (setKey (setKey (setKey w.config
          "core.editor" (editorCmd env.findExe))
          "difftool.vscode.cmd" (diffCmd env.findExe))
          "diff.tool" "vscode")
          "mergetool.vscode.cmd" (mergeCmd env.findExe))
          "merge.tool" "vscode") "diff.tool"
        = some "vscode" := by
      rw [lookupKey_setKey_ne _ _ _ _ (by decide),
        lookupKey_setKey_ne _ _ _ _ (by decide)]
      exact lookupKey_setKey_self _ _ _
    rw [setKey_of_lookup _ _ _ l3]
    have l4 : lookupKey
        (setKey (setKey (setKey (setKey (setKey w.config
          "core.editor" (editorCmd env.findExe))
          "difftool.vscode.cmd" (diffCmd env.findExe))
          "diff.tool" "vscode")
          "mergetool.vscode.cmd" (mergeCmd env.findExe))
          "merge.tool" "vscode") "mergetool.vscode.cmd"
        = some (mergeCmd env.findExe) := by
      rw [lookupKey_setKey_ne _ _ _ _ (by decide)]
      exact lookupKey_setKey_self _ _ _
    rw [setKey_of_lookup _ _ _ l4]
    exact setKey_of_lookup _ _ _ (lookupKey_setKey_self _ _ _)

theorem installers_idempotent_witness :
    (setVsCodeAsGitTools envAllOk w0).1 = true
    ∧ (setVsCodeAsGitTools envAllOk (setVsCodeAsGitTools envAllOk w0).2).1
        = true
    ∧ (setVsCodeAsGitTools envAllOk
          (setVsCodeAsGitTools envAllOk w0).2).2.config
        = (setVsCodeAsGitTools envAllOk w0).2.config :=
  (installers_idempotent envAllOk w0 (fun _ _ => rfl)).2.2.2

/-- C10: in each run of the diff-tool and merge-tool installers, the tool
selection key is only ever written after the corresponding command key was
written successfully in the same run: when the command-key write fails, the
selection write is not attempted and the configuration is untouched, and
when it succeeds the trace records the command write strictly before the
selection write. -/
theorem selection_requires_command (env : GitEnv) (w : World) :
    (stepOk env "difftool.vscode.cmd" (diffCmd env.findExe) = false →
      (setVsCodeAsGitDiffTool env w none).2.execTrace
        = w.execTrace ++ [("difftool.vscode.cmd", diffCmd env.findExe)]
      ∧ (setVsCodeAsGitDiffTool env w none).2.config = w.config)
  ∧ (stepOk env "difftool.vscode.cmd" (diffCmd env.findExe) = true →
      (setVsCodeAsGitDiffTool env w none).2.execTrace
        = w.execTrace ++ [("difftool.vscode.cmd", diffCmd env.findExe),
            ("diff.tool", "vscode")])
  ∧ (stepOk env "mergetool.vscode.cmd" (mergeCmd env.findExe) = false →
      (setVsCodeAsGitMergeTool env w none).2.execTrace
        = w.execTrace ++ [("mergetool.vscode.cmd", mergeCmd env.findExe)]
      ∧ (setVsCodeAsGitMergeTool env w none).2.config = w.config)
  ∧ (stepOk env "mergetool.vscode.cmd" (mergeCmd env.findExe) = true →
      (setVsCodeAsGitMergeTool env w none).2.execTrace
        = w.execTrace ++ [("mergetool.vscode.cmd", mergeCmd env.findExe),
            ("merge.tool", "vscode")]) := by
  refine ⟨?_, ?_, ?_, ?_⟩ <;> intro h
  · exact ⟨by simp [diff_trace, resolveExe, h], by simp [diff_config, resolveExe, h]⟩
  · simp [diff_trace, resolveExe, h]
  · exact ⟨by simp [merge_trace, resolveExe, h], by simp [merge_config, resolveExe, h]⟩
  · simp [merge_trace, resolveExe, h]

theorem selection_requires_command_witness :
    stepOk (envFailOn "difftool.vscode.cmd") "difftool.vscode.cmd"
      (diffCmd (envFailOn "difftool.vscode.cmd").findExe) = false
  ∧ (setVsCodeAsGitDiffTool (envFailOn "difftool.vscode.cmd") w0 none).2.config
      = w0.config :=
  ⟨by decide,
   ((selection_requires_command (envFailOn "difftool.vscode.cmd") w0).1
      (by decide)).2⟩

/-! ### The toolchain record, settings and user-facing prompt flows -/

/-- `IGit` from git.ts: the discovered toolchain's path and version. -/
structure IGit where
  path : String
  version : String
deriving DecidableEq, Repr

/-- The user's reaction to a two-button warning prompt: the first button
("Update Git" / "Download Git"), the second button ("Don't Show Again"),
or dismissing the prompt without choosing. -/
inductive PromptChoice where
  | first
  | second
  | dismissed
deriving DecidableEq, Repr

/-- The two persisted dismissal flags of the `git` configuration section;
`none` models an unset setting (`config.get` returning `undefined`). -/
structure Settings where
  ignoreLegacyWarning : Option Bool
  ignoreMissingGitWarning : Option Bool
deriving DecidableEq, Repr

/-- State touched by the warning flows: the settings plus the warning
prompts shown and the URLs opened via `vscode.open`. -/
structure UIState where
  settings : Settings
  warningPrompts : List String
  urlsOpened : List String
deriving DecidableEq, Repr

/-- The test `/^[01]/.test(info.version)`: the first character of the
version string is `'0'` or `'1'` (an empty string has no match). -/
def versionLeadingLegacy (v : String) : Bool :=
  match v.data with
  | [] => false
  | c :: _ => c == '0' || c == '1'

/-- `checkGitVersion` from main.ts: no-op when the dismissal flag is
exactly `true` or the version's first character is outside `[01]`;
otherwise shows one warning, and acts on the user's choice. -/
def checkGitVersion (st : UIState) (choice : PromptChoice) (info : IGit) :
    UIState :=
  if st.settings.ignoreLegacyWarning = some true then st
  else if versionLeadingLegacy info.version = false then st
  else
    let st' := { st with warningPrompts := st.warningPrompts ++ ["git20"] }
    match choice with
    | .first =>
        { st' with urlsOpened := st'.urlsOpened ++ ["https://git-scm.com/"] }
    | .second =>
        { st' with settings :=
            { st'.settings with ignoreLegacyWarning := some true } }
    | .dismissed => st'

/-- C2: `checkGitVersion` shows exactly one warning prompt when the
dismissal flag is not set to `true` and the version string's first
character is `'0'` or `'1'` (which is precisely what the legacy test
accepts), and it is a complete no-op in every other case. -/
theorem checkGitVersion_legacy_gate (st : UIState) (choice : PromptChoice)
    (info : IGit) :
    (∀ v : String, versionLeadingLegacy v = true ↔
      ∃ cs, v.data = '0' :: cs ∨ v.data = '1' :: cs)
  ∧ (st.settings.ignoreLegacyWarning ≠ some true →
      versionLeadingLegacy info.version = true →
      (checkGitVersion st choice info).warningPrompts
        = st.warningPrompts ++ ["git20"])
  ∧ (st.settings.ignoreLegacyWarning = some true
        ∨ versionLeadingLegacy info.version = false →
      checkGitVersion st choice info = st) := by
  refine ⟨?_, ?_, ?_⟩
  · intro v
    cases hd : v.data with
    | nil => simp [versionLeadingLegacy, hd]
    | cons c cs =>
        simp only [versionLeadingLegacy, hd, Bool.or_eq_true, beq_iff_eq,
          List.cons.injEq]
        constructor
        · rintro (rfl | rfl)
          · exact ⟨cs, Or.inl ⟨rfl, rfl⟩⟩
          · exact ⟨cs, Or.inr ⟨rfl, rfl⟩⟩
        · rintro ⟨cs', ⟨rfl, rfl⟩ | ⟨rfl, rfl⟩⟩ <;> simp
  · intro hig hleg
    cases choice <;> simp [checkGitVersion, hig, hleg]
  · rintro (h | h) <;> simp [checkGitVersion, h]

theorem checkGitVersion_legacy_gate_witness :
    (checkGitVersion
        ⟨⟨none, none⟩, [], []⟩ PromptChoice.dismissed
        ⟨"/usr/bin/git", "1.9.5"⟩).warningPrompts = [] ++ ["git20"]
  ∧ checkGitVersion ⟨⟨none, none⟩, [], []⟩ PromptChoice.dismissed
        ⟨"/usr/bin/git", "2.30.1"⟩ = ⟨⟨none, none⟩, [], []⟩ :=
  ⟨(checkGitVersion_legacy_gate ⟨⟨none, none⟩, [], []⟩ PromptChoice.dismissed
      ⟨"/usr/bin/git", "1.9.5"⟩).2.1 (by decide) (by decide),
   (checkGitVersion_legacy_gate ⟨⟨none, none⟩, [], []⟩ PromptChoice.dismissed
      ⟨"/usr/bin/git", "2.30.1"⟩).2.2 (Or.inr (by decide))⟩

/-! ### Missing-git recovery -/

/-- A workspace folder: its URI scheme and filesystem path. -/
structure WorkspaceFolder where
  scheme : String
  fsPath : String
deriving DecidableEq, Repr

/-- Result of `fs.stat`. -/
structure FsStat where
  isDirectory : Bool
deriving DecidableEq, Repr

/-- Filesystem behaviour: `stat` returns `none` when the callback receives
an error. -/
structure FsEnv where
  stat : String → Option FsStat

/-- `isGitRepository` from main.ts: only `file`-scheme folders qualify,
the `.git` entry must stat as a directory, and a stat error is caught and
means `false`. -/
def isGitRepository (fs : FsEnv) (folder : WorkspaceFolder) : Bool :=
  if folder.scheme ≠ "file" then false
  else
    match fs.stat (folder.fsPath ++ "/.git") with
    | none => false
    | some st => st.isDirectory

/-- `warnAboutMissingGit` from main.ts: no-op when the dismissal flag is
`true`, when `workspace.workspaceFolders` is undefined, or when no folder
is a git repository; otherwise shows one warning and acts on the choice. -/
def warnAboutMissingGit (fs : FsEnv) (folders : Option (List WorkspaceFolder))
    (st : UIState) (choice : PromptChoice) : UIState :=
  if st.settings.ignoreMissingGitWarning = some true then st
  else
    match folders with
    | none => st
    | some fl =>
        if (fl.map (isGitRepository fs)).all (fun b => !b) then st
        else
          let st' := { st with warningPrompts := st.warningPrompts ++ ["notfound"] }
          match choice with
          | .first =>
              { st' with urlsOpened := st'.urlsOpened ++ ["https://git-scm.com/"] }
          | .second =>
              { st' with settings :=
                  { st'.settings with ignoreMissingGitWarning := some true } }
          | .dismissed => st'

/-- C6: `warnAboutMissingGit` changes nothing and shows nothing when the
dismissal flag is `true`, when there are no workspace folders, or when no
folder qualifies; and a folder qualifies exactly when its scheme is
`file` and its `.git` entry stats as a directory — a stat failure makes
the folder non-qualifying instead of raising. -/
theorem warnAboutMissingGit_noop (fs : FsEnv)
    (folders : Option (List WorkspaceFolder)) (st : UIState)
    (choice : PromptChoice) :
    (∀ f : WorkspaceFolder, isGitRepository fs f = true ↔
      (f.scheme = "file"
        ∧ ∃ d, fs.stat (f.fsPath ++ "/.git") = some d ∧ d.isDirectory = true))
  ∧ (st.settings.ignoreMissingGitWarning = some true →
      warnAboutMissingGit fs folders st choice = st)
  ∧ (folders = none → warnAboutMissingGit fs folders st choice = st)
  ∧ (∀ fl, folders = some fl → (∀ f ∈ fl, isGitRepository fs f = false) →
      warnAboutMissingGit fs folders st choice = st) := by
  refine ⟨?_, ?_, ?_, ?_⟩
  · intro f
    by_cases hs : f.scheme = "file"
    · rcases h : fs.stat (f.fsPath ++ "/.git") with _ | d <;>
        simp [isGitRepository, hs, h]
    · simp [isGitRepository, hs]
  · intro h
    simp [warnAboutMissingGit, h]
  · intro h
    subst h
    simp [warnAboutMissingGit]
  · intro fl hfl hall
    subst hfl
    have hq : (fl.map (isGitRepository fs)).all (fun b => !b) = true := by
      simp only [List.all_eq_true, List.mem_map]
      rintro b ⟨f, hf, rfl⟩
      simp [hall f hf]
    simp [warnAboutMissingGit, hq]

theorem warnAboutMissingGit_noop_witness :
    isGitRepository ⟨fun _ => some ⟨true⟩⟩ ⟨"file", "/home/user/project"⟩ = true
  ∧ warnAboutMissingGit ⟨fun _ => none⟩
      (some [⟨"file", "/home/user/project"⟩, ⟨"vscode-vfs", "/remote"⟩])
      ⟨⟨none, none⟩, [], []⟩ PromptChoice.dismissed
      = ⟨⟨none, none⟩, [], []⟩ :=
  ⟨((warnAboutMissingGit_noop ⟨fun _ => some ⟨true⟩⟩ none
        ⟨⟨none, none⟩, [], []⟩ PromptChoice.dismissed).1
      ⟨"file", "/home/user/project"⟩).mpr ⟨rfl, ⟨true⟩, rfl, rfl⟩,
   (warnAboutMissingGit_noop ⟨fun _ => none⟩
        (some [⟨"file", "/home/user/project"⟩, ⟨"vscode-vfs", "/remote"⟩])
        ⟨⟨none, none⟩, [], []⟩ PromptChoice.dismissed).2.2.2
      [⟨"file", "/home/user/project"⟩, ⟨"vscode-vfs", "/remote"⟩] rfl
      (by decide)⟩

/-! ### Activation error routing -/

/-- `pat` occurs as a substring of `s`: the model of
`/Git installation not found/.test(msg)`. -/
def substrB (pat s : String) : Bool := decide (pat.data <:+: s.data)

/-- Result of `activate`: either it resolves with a `GitExtension`
(`hasModel` says whether a model backs it) in some UI state, or it
re-raises the failure to the host. -/
inductive ActivationOutcome where
  | extension (hasModel : Bool) (st : UIState)
  | raised (msg : String)
deriving DecidableEq, Repr

/-- The `try/catch` around `createModel` in `activate` from main.ts: an
error whose message lacks the fixed substring is re-thrown; a matching
error is logged, routed into `warnAboutMissingGit`, and activation still
resolves with a model-less `GitExtension`. -/
def activate (createModelResult : Except String Unit) (fs : FsEnv)
    (folders : Option (List WorkspaceFolder)) (st : UIState)
    (choice : PromptChoice) : ActivationOutcome :=
  match createModelResult with
  | .ok _ => .extension true st
  | .error msg =>
      if substrB "Git installation not found" msg = false then .raised msg
      else .extension false (warnAboutMissingGit fs folders st choice)

/-- C5: an activation failure whose message contains the fixed substring
is handled locally — activation runs the missing-toolchain recovery flow
and still resolves with a (model-less) `GitExtension` — while a failure
without that substring is re-raised. -/
theorem activate_err_routing (msg : String) (fs : FsEnv)
    (folders : Option (List WorkspaceFolder)) (st : UIState)
    (choice : PromptChoice) :
    (substrB "Git installation not found" msg = true →
      activate (Except.error msg) fs folders st choice
        = ActivationOutcome.extension false
            (warnAboutMissingGit fs folders st choice))
  ∧ (substrB "Git installation not found" msg = false →
      activate (Except.error msg) fs folders st choice
        = ActivationOutcome.raised msg) := by
  constructor <;> intro h <;> simp [activate, h]

theorem activate_err_routing_witness :
    activate (Except.error "Git installation not found somewhere")
      ⟨fun _ => none⟩ none ⟨⟨none, none⟩, [], []⟩ PromptChoice.dismissed
      = ActivationOutcome.extension false
          (warnAboutMissingGit ⟨fun _ => none⟩ none
            ⟨⟨none, none⟩, [], []⟩ PromptChoice.dismissed)
  ∧ activate (Except.error "unexpected failure")
      ⟨fun _ => none⟩ none ⟨⟨none, none⟩, [], []⟩ PromptChoice.dismissed
      = ActivationOutcome.raised "unexpected failure" :=
  ⟨(activate_err_routing "Git installation not found somewhere"
      ⟨fun _ => none⟩ none ⟨⟨none, none⟩, [], []⟩ PromptChoice.dismissed).1
      (by decide),
   (activate_err_routing "unexpected failure"
      ⟨fun _ => none⟩ none ⟨⟨none, none⟩, [], []⟩ PromptChoice.dismissed).2
      (by decide)⟩

/-! ### Teardown registry -/

/-- A registered teardown action, by registration id, together with
whether awaiting it fails. -/
structure TeardownTask where
  id : Nat
  fails : Bool
deriving DecidableEq, Repr

/-- `deactivate` from main.ts: `for (const task of deactivateTasks) await
task();` — returns the ids of the tasks that were invoked, in order, and
the id of the failing task whose rejection propagated, if any. -/
def deactivate : List TeardownTask → List Nat × Option Nat
  | [] => ([], none)
  | t :: ts =>
      if t.fails then ([t.id], some t.id)
      else
        let r := deactivate ts
        (t.id :: r.1, r.2)

theorem deactivate_all_ok (ts : List TeardownTask)
    (h : ∀ t ∈ ts, t.fails = false) :
    deactivate ts = (ts.map TeardownTask.id, none) := by
  induction ts with
  | nil => simp [deactivate]
  | cons t ts ih =>
      have ht : t.fails = false := h t (by simp)
      have hrest := ih (fun u hu => h u (by simp [hu]))
      simp [deactivate, ht, hrest]

theorem deactivate_abort (pre : List TeardownTask) (t : TeardownTask)
    (post : List TeardownTask) (hpre : ∀ u ∈ pre, u.fails = false)
    (ht : t.fails = true) :
    deactivate (pre ++ t :: post)
      = (pre.map TeardownTask.id ++ [t.id], some t.id) := by
  induction pre with
  | nil => simp [deactivate, ht]
  | cons u pre ih =>
      have hu : u.fails = false := hpre u (by simp)
      have hr := ih (fun x hx => hpre x (by simp [hx]))
      simp [deactivate, hu, hr]

/-- C3 counterexample: with a failing task registered first and a healthy
task registered second, `deactivate` invokes only the first task — the
later-registered task is not invoked, so a failing task does prevent
later tasks from running. -/
theorem deactivate_claim_counterexample :
    (deactivate [⟨0, true⟩, ⟨1, false⟩]).1 = [0]
  ∧ 1 ∉ (deactivate [⟨0, true⟩, ⟨1, false⟩]).1 := by
  decide

/-- C3 (amended): `deactivate` invokes and awaits the registered tasks
strictly in registration order, but only up to and including the first
failing task; that task's failure propagates and the tasks registered
after it are not invoked.  When no task fails, every task is invoked in
registration order. -/
theorem deactivate_order_and_abort (ts : List TeardownTask) :
    ((∀ t ∈ ts, t.fails = false) →
      deactivate ts = (ts.map TeardownTask.id, none))
  ∧ (∀ pre t post, ts = pre ++ t :: post →
      (∀ u ∈ pre, u.fails = false) → t.fails = true →
      deactivate ts = (pre.map TeardownTask.id ++ [t.id], some t.id)) := by
  constructor
  · exact deactivate_all_ok ts
  · intro pre t post hts hpre ht
    subst hts
    exact deactivate_abort pre t post hpre ht

theorem deactivate_order_and_abort_witness :
    deactivate [⟨0, false⟩, ⟨1, false⟩] = ([0, 1], none)
  ∧ deactivate [⟨0, false⟩, ⟨1, true⟩, ⟨2, false⟩] = ([0, 1], some 1) :=
  ⟨(deactivate_order_and_abort [⟨0, false⟩, ⟨1, false⟩]).1 (by decide),
   (deactivate_order_and_abort [⟨0, false⟩, ⟨1, true⟩, ⟨2, false⟩]).2
      [⟨0, false⟩] ⟨1, true⟩ [⟨2, false⟩] rfl (by decide) rfl⟩

/-! ### Output log sink -/

/-- The character class `\s` of JavaScript regular expressions. -/
def isJsWhitespace (c : Char) : Bool :=
  c == '\t' || c == '\n' || c == '\x0b' || c == '\x0c' || c == '\r'
    || c == ' ' || c == ' ' || c == ' '
    || (0x2000 ≤ c.toNat && c.toNat ≤ 0x200A)
    || c == ' ' || c == ' ' || c == ' ' || c == ' '
    || c == '　' || c == '﻿'

/-- Split on `/\r?\n/`: a carriage return immediately followed by a line
feed is one separator, a bare line feed is one separator, and any other
character (including a lone carriage return) belongs to the current line.
`acc` holds the current line, reversed. -/
def splitLineData : List Char → List Char → List (List Char)
  | [], acc => [acc.reverse]
  | '\r' :: '\n' :: rest, acc => acc.reverse :: splitLineData rest []
  | '\n' :: rest, acc => acc.reverse :: splitLineData rest []
  | c :: rest, acc => splitLineData rest (c :: acc)

/-- `str.split(/\r?\n/mg)`. -/
def splitLines (s : String) : List String :=
  (splitLineData s.data []).map String.mk

/-- `/^\s*$/.test(line)`: the line consists only of whitespace. -/
def isAllWs (l : String) : Bool := l.data.all isJsWhitespace

/-- The `while` loop popping trailing all-whitespace lines (the loop also
stops safely once the array is empty, since the regex test on `undefined`
is false). -/
def dropTrailingWs (ls : List String) : List String :=
  ((ls.reverse).dropWhile isAllWs).reverse

/-- The `onOutput` listener in `createModel`: splits, strips trailing
whitespace-only lines, and forwards one `appendLine` entry to the
channel. -/
def onOutput (str : String) (channelLines : List String) : List String :=
  channelLines ++ [String.intercalate "\n" (dropTrailingWs (splitLines str))]

theorem head_dropWhile_all {α : Type} (p : α → Bool) (m : List α) :
    ((m.dropWhile p).head?.all fun a => !p a) = true := by
  induction m with
  | nil => simp
  | cons a m ih =>
      by_cases h : p a
      · simpa [List.dropWhile_cons, h] using ih
      · simp [List.dropWhile_cons, h, Option.all]

theorem dropTrailingWs_spec (ls : List String) :
    ∃ dropped : List String,
      ls = dropTrailingWs ls ++ dropped
    ∧ dropped.all isAllWs = true
    ∧ ((dropTrailingWs ls).getLast?.all fun l => !isAllWs l) = true := by
  refine ⟨(ls.reverse.takeWhile isAllWs).reverse, ?_, ?_, ?_⟩
  · rw [dropTrailingWs, ← List.reverse_append,
      List.takeWhile_append_dropWhile, List.reverse_reverse]
  · simp only [List.all_eq_true, List.mem_reverse]
    intro x hx
    exact List.mem_takeWhile_imp hx
  · rw [dropTrailingWs, List.getLast?_reverse]
    exact head_dropWhile_all isAllWs ls.reverse

/-- C7: the output handler splits its input on bare or carriage-return
prefixed newlines, keeps an unchanged prefix of those lines (so interior
blank lines survive), drops exactly a trailing run of whitespace-only
lines (the last kept line, if any, is not whitespace-only), and appends
the kept lines rejoined with a line feed to the channel as one single
entry. -/
theorem onOutput_trailing_blank_lines (str : String) (ch : List String) :
    ∃ dropped : List String,
      splitLines str = dropTrailingWs (splitLines str) ++ dropped
    ∧ dropped.all isAllWs = true
    ∧ ((dropTrailingWs (splitLines str)).getLast?.all fun l => !isAllWs l)
        = true
    ∧ onOutput str ch
        = ch ++ [String.intercalate "\n" (dropTrailingWs (splitLines str))] := by
  obtain ⟨dropped, h1, h2, h3⟩ := dropTrailingWs_spec (splitLines str)
  exact ⟨dropped, h1, h2, h3, rfl⟩

/-! ### Activation gate -/

/-- One `onDidChangeConfiguration` event: whether
`e.affectsConfiguration('git')` holds, and whether the re-read value of
the `git.enabled` setting is exactly `true` at that moment. -/
structure ConfigChangeEvent where
  affectsGit : Bool
  enabledNow : Bool
deriving DecidableEq, Repr

/-- How the activation gate resolves: immediately, at the i-th
configuration-change event, or not at all within the given event trace. -/
inductive GateResult where
  | immediate
  | atEvent (i : Nat)
  | never
deriving DecidableEq, Repr

/-- Index of the first event passing both `filterEvent` stages
(`affectsConfiguration('git')`, then `enabled === true`). -/
def findEnabledIdx : List ConfigChangeEvent → Option Nat
  | [] => none
  | e :: rest =>
      if e.affectsGit && e.enabledNow then some 0
      else (findEnabledIdx rest).map (· + 1)

/-- The enablement gate at the top of `activate`: when the setting is
already truthy it proceeds at once; otherwise `eventToPromise` resolves on
the first filtered configuration-change event, and never resolves
without one. -/
def awaitEnablement (enabled : Bool) (events : List ConfigChangeEvent) :
    GateResult :=
  if enabled then .immediate
  else
    match findEnabledIdx events with
    | some i => .atEvent i
    | none => .never

theorem findEnabledIdx_some (evs : List ConfigChangeEvent) (i : Nat)
    (h : findEnabledIdx evs = some i) :
    ∃ e, evs.get? i = some e ∧ (e.affectsGit && e.enabledNow) = true
      ∧ ∀ j, j < i → ∀ e', evs.get? j = some e' →
          (e'.affectsGit && e'.enabledNow) = false := by
  induction evs generalizing i with
  | nil => simp [findEnabledIdx] at h
  | cons e rest ih =>
      by_cases he : (e.affectsGit && e.enabledNow) = true
      · simp only [findEnabledIdx, he, if_true, Option.some.injEq] at h
        subst h
        exact ⟨e, by simp, he, fun j hj => absurd hj (by omega)⟩
      · have he' : (e.affectsGit && e.enabledNow) = false := by
          simpa using he
        simp only [findEnabledIdx, he', if_false, Bool.false_eq_true,
          Option.map_eq_some'] at h
        obtain ⟨i', hi', rfl⟩ := h
        obtain ⟨e', hg, hok, hmin⟩ := ih i' hi'
        refine ⟨e', by simpa using hg, hok, ?_⟩
        intro j hj e'' hj'
        cases j with
        | zero =>
            simp only [List.get?_cons_zero, Option.some.injEq] at hj'
            rw [← hj']
            exact he'
        | succ j =>
            exact hmin j (by omega) e'' (by simpa using hj')

theorem findEnabledIdx_none (evs : List ConfigChangeEvent)
    (h : ∀ e ∈ evs, (e.affectsGit && e.enabledNow) = false) :
    findEnabledIdx evs = none := by
  induction evs with
  | nil => rfl
  | cons e rest ih =>
      simp [findEnabledIdx, h e (by simp),
        ih fun x hx => h x (by simp [hx])]

/-- C8: when the enablement setting is true at activation start the gate
resolves immediately; otherwise it resolves exactly at the first
configuration-change event that affects `git` and at which the setting's
resolved value is true, and it never resolves — activation stays
suspended, so no model is created — while no such event occurs. -/
theorem awaitEnablement_gate (enabled : Bool)
    (evs : List ConfigChangeEvent) :
    awaitEnablement true evs = GateResult.immediate
  ∧ (∀ i, awaitEnablement enabled evs = GateResult.atEvent i →
      enabled = false
      ∧ ∃ e, evs.get? i = some e ∧ e.affectsGit = true ∧ e.enabledNow = true
          ∧ ∀ j, j < i → ∀ e', evs.get? j = some e' →
              ¬(e'.affectsGit = true ∧ e'.enabledNow = true))
  ∧ ((∀ e ∈ evs, ¬(e.affectsGit = true ∧ e.enabledNow = true)) →
      awaitEnablement false evs = GateResult.never) := by
  refine ⟨by simp [awaitEnablement], ?_, ?_⟩
  · intro i h
    cases enabled with
    | true => simp [awaitEnablement] at h
    | false =>
        refine ⟨rfl, ?_⟩
        rcases hf : findEnabledIdx evs with _ | i'
        · simp [awaitEnablement, hf] at h
        · simp only [awaitEnablement, if_false, hf, Bool.false_eq_true,
            GateResult.atEvent.injEq] at h
          subst h
          obtain ⟨e, hg, hok, hmin⟩ := findEnabledIdx_some evs i' hf
          rw [Bool.and_eq_true] at hok
          refine ⟨e, hg, hok.1, hok.2, ?_⟩
          intro j hj e' hj' hcontra
          have := hmin j hj e' hj'
          rw [hcontra.1, hcontra.2] at this
          simp at this
  · intro h
    have hn : findEnabledIdx evs = none := by
      refine findEnabledIdx_none evs fun e he => ?_
      have := h e he
      cases hb : e.affectsGit <;> cases hb' : e.enabledNow <;> simp_all
    simp [awaitEnablement, hn]

theorem awaitEnablement_gate_witness :
    awaitEnablement true [] = GateResult.immediate
  ∧ (false = false
      ∧ ∃ e, ([⟨true, false⟩, ⟨true, true⟩] : List ConfigChangeEvent).get? 1
            = some e
          ∧ e.affectsGit = true ∧ e.enabledNow = true
          ∧ ∀ j, j < 1 → ∀ e',
              ([⟨true, false⟩, ⟨true, true⟩] :
                List ConfigChangeEvent).get? j = some e' →
              ¬(e'.affectsGit = true ∧ e'.enabledNow = true))
  ∧ awaitEnablement false [⟨true, false⟩, ⟨false, true⟩]
      = GateResult.never :=
  ⟨(awaitEnablement_gate false []).1,
   (awaitEnablement_gate false [⟨true, false⟩, ⟨true, true⟩]).2.1 1
      (by decide),
   (awaitEnablement_gate false [⟨true, false⟩, ⟨false, true⟩]).2.2
      (by decide)⟩

end VscodeGit
